import Mathlib

/-!
Verification development for the SafeDrive trip dispatch backend.

The definitions below are a shallow embedding of the JavaScript sources:
`backend/src/utils/pricing.js`, `backend/src/utils/location.js` and
`backend/src/routes/trips.js`.  Monetary and geometric quantities are
modelled as rationals (`ℚ`), timestamps as integers, database tables as
finite maps (a function for the `trips` table, an association list for
`driver_profiles`), and every route handler as a pure function from a
server state to a result paired with the next state.  The SQL statement
`UPDATE trips ... WHERE id = $2 AND status = 'pending'` is an atomic
compare-and-set executed by the database; concurrent accept races are
therefore modelled as an arbitrary serialization order of the competing
calls, which is exactly what the row lock provides.
-/

/-- JavaScript `Math.round`: round half toward positive infinity,
    i.e. `⌊x + 1/2⌋`. -/
def jsRound (q : ℚ) : ℤ := ⌊q + 1/2⌋

/-- Row of the `pricing_config` table (the columns read by
    `calculatePrice` in `backend/src/utils/pricing.js`). -/
structure PricingConfig where
  base_price : ℚ
  price_per_km : ℚ
  night_multiplier : ℚ
  weekend_multiplier : ℚ
  minimum_price : ℚ
deriving DecidableEq, Repr

/-- The default pricing configuration from the schema defaults:
    base 300, per km 50, night 1.5, weekend 1.2, minimum 400. -/
def defaultConfig : PricingConfig :=
  { base_price := 300, price_per_km := 50, night_multiplier := 3/2
  , weekend_multiplier := 6/5, minimum_price := 400 }

/-- The aspects of a JavaScript `Date` value that the backend reads:
    an epoch timestamp plus the local hour (`getHours`, 0..23) and
    weekday (`getDay`, 0 = Sunday .. 6 = Saturday). -/
structure Instant where
  epoch : ℤ
  hour : ℕ
  day : ℕ
deriving DecidableEq, Repr

/-- `calculatePrice(distanceKm, requestTime, config)` from
    `backend/src/utils/pricing.js`: base price, plus distance cost,
    night multiplier for hours in `[22,24) ∪ [0,6)`, weekend multiplier
    on Saturday/Sunday, clamped below by the minimum price and rounded
    to the nearest 10 KES with `Math.round(price / 10) * 10`. -/
def calculatePrice (distanceKm : ℚ) (requestTime : Instant) (config : PricingConfig) : ℤ :=
  let price := config.base_price + distanceKm * config.price_per_km
  let price := if 22 ≤ requestTime.hour ∨ requestTime.hour < 6 then
      price * config.night_multiplier else price
  let price := if requestTime.day = 0 ∨ requestTime.day = 6 then
      price * config.weekend_multiplier else price
  let price := max price config.minimum_price
  jsRound (price / 10) * 10

/-- `calculateETA(distanceKm)` from `backend/src/utils/location.js`:
    minutes at 30 km/h with a floor of 3 minutes. -/
def calculateETA (distanceKm : ℚ) : ℤ :=
  max (jsRound (distanceKm / 30 * 60)) 3

/-! ## Geometry and driver search (`backend/src/utils/location.js`) -/

/-- A geographic point (latitude, longitude). -/
structure Coord where
  latitude : ℚ
  longitude : ℚ
deriving DecidableEq, Repr, Inhabited

/-- `validateCoordinates(latitude, longitude)` from
    `backend/src/utils/location.js`: both values are numbers with
    latitude in `[-90, 90]` and longitude in `[-180, 180]`. -/
def validateCoordinates (latitude longitude : ℚ) : Bool :=
  decide (-90 ≤ latitude) && decide (latitude ≤ 90)
    && decide (-180 ≤ longitude) && decide (longitude ≤ 180)

/-- `isWithinServiceArea(latitude, longitude)` from
    `backend/src/utils/location.js`: the Nairobi bounding box
    (south -1.444, north -1.163, west 36.651, east 37.103). -/
def isWithinServiceArea (latitude longitude : ℚ) : Bool :=
  decide (-1444/1000 ≤ latitude) && decide (latitude ≤ -1163/1000)
    && decide (36651/1000 ≤ longitude) && decide (longitude ≤ 37103/1000)

/-- The `driver_profiles.approval_status` enum. -/
inductive ApprovalStatus where
  | pending
  | approved
  | rejected
deriving DecidableEq, Repr, Inhabited

/-- A row of `driver_profiles` joined with its `users` row — the columns
    the backend reads.  `user_active` is `users.status = 'active'`. -/
structure DriverProfile where
  approval_status : ApprovalStatus
  is_available : Bool
  current_location : Option Coord
  last_location_update : Option ℤ
  user_active : Bool
  full_name : String
  phone_number : String
  rating_average : ℚ
  total_trips : Nat
  profile_photo_url : String
deriving DecidableEq, Repr, Inhabited

/-- Distance in metres from a driver row to the query point
    (`ST_Distance(dp.current_location, point)` in `findNearbyDrivers`;
    the metric itself is PostGIS geography distance, taken as a
    parameter `distM`).  A row with no stored location never survives
    the `ST_DWithin` filter, so the `0` default is never observed. -/
def rowDist (distM : Coord → Coord → ℚ) (q : Coord) (p : Nat × DriverProfile) : ℚ :=
  match p.2.current_location with
  | some c => distM c q
  | none => 0

/-- The freshness conjunct of the `WHERE` clause of `findNearbyDrivers`:
    `last_location_update > NOW() - INTERVAL '10 minutes'`
    (timestamps in seconds, so the freshness window is 600; a row whose
    `last_location_update` is NULL never satisfies the comparison). -/
def freshRow (now : ℤ) (dp : DriverProfile) : Bool :=
  match dp.last_location_update with
  | some ts => decide (now - 600 < ts)
  | none => false

/-- The SQL `WHERE` clause of `findNearbyDrivers`:
    `is_available = true AND approval_status = 'approved' AND
    u.status = 'active' AND ST_DWithin(location, point, radius_m) AND
    last_location_update > NOW() - INTERVAL '10 minutes'`. -/
def eligibleRow (distM : Coord → Coord → ℚ) (q : Coord) (radiusKm : ℚ) (now : ℤ)
    (p : Nat × DriverProfile) : Bool :=
  p.2.is_available
    && (p.2.approval_status == .approved)
    && p.2.user_active
    && (match p.2.current_location with
        | some c => decide (distM c q ≤ radiusKm * 1000)
        | none => false)
    && freshRow now p.2

/-- Insert an element into a list sorted ascending by `key`
    (used to model the SQL `ORDER BY distance_km ASC`). -/
def insertByKey (key : α → ℚ) (a : α) : List α → List α
  | [] => [a]
  | b :: bs => if key a ≤ key b then a :: b :: bs else b :: insertByKey key a bs

/-- Sort a list ascending by `key` (insertion sort; models `ORDER BY`). -/
def sortByKey (key : α → ℚ) : List α → List α
  | [] => []
  | a :: as => insertByKey key a (sortByKey key as)

/-- The rows produced by the SQL query inside `findNearbyDrivers`:
    filter by the `WHERE` clause, `ORDER BY distance_km ASC`, `LIMIT 20`. -/
def nearbyRows (distM : Coord → Coord → ℚ) (drivers : List (Nat × DriverProfile))
    (q : Coord) (radiusKm : ℚ) (now : ℤ) : List (Nat × DriverProfile) :=
  ((sortByKey (rowDist distM q) (drivers.filter (eligibleRow distM q radiusKm now))).take 20)

/-- One element of the array returned by `findNearbyDrivers`
    (the `result.rows.map(driver => ...)` presentation). -/
structure Candidate where
  id : Nat
  name : String
  phone : String
  rating : ℚ
  total_trips : Nat
  profile_photo_url : String
  distance_km : ℚ
  eta_minutes : ℤ
  location : Coord
deriving DecidableEq, Repr

/-- The per-row presentation map of `findNearbyDrivers`:
    `distance_km = ST_Distance / 1000`, ETA from `calculateETA`. -/
def presentRow (distM : Coord → Coord → ℚ) (q : Coord) (p : Nat × DriverProfile) : Candidate :=
  { id := p.1, name := p.2.full_name, phone := p.2.phone_number
  , rating := p.2.rating_average, total_trips := p.2.total_trips
  , profile_photo_url := p.2.profile_photo_url
  , distance_km := rowDist distM q p / 1000
  , eta_minutes := calculateETA (rowDist distM q p / 1000)
  , location := p.2.current_location.getD ⟨0, 0⟩ }

/-- `findNearbyDrivers(latitude, longitude, radiusKm)` from
    `backend/src/utils/location.js`: the filtered, distance-ordered,
    20-capped rows, mapped to the returned candidate objects. -/
def findNearbyDrivers (distM : Coord → Coord → ℚ) (drivers : List (Nat × DriverProfile))
    (q : Coord) (radiusKm : ℚ) (now : ℤ) : List Candidate :=
  (nearbyRows distM drivers q radiusKm now).map (presentRow distM q)

/-! ## Trip data model (`trips` table and `backend/src/routes/trips.js`) -/

/-- The `trips.status` enum. -/
inductive TripStatus where
  | pending
  | accepted
  | driver_arriving
  | in_progress
  | completed
  | cancelled_by_client
  | cancelled_by_driver
deriving DecidableEq, Repr, Inhabited

/-- A row of the `trips` table (the columns the routes touch). -/
structure Trip where
  client_id : Nat
  driver_id : Option Nat
  pickup : Coord
  pickup_address : String
  dropoff : Coord
  dropoff_address : String
  estimated_distance_km : ℚ
  estimated_duration_min : ℤ
  estimated_price : ℤ
  final_price : Option ℤ
  status : TripStatus
  requested_at : ℤ
  accepted_at : Option ℤ
  started_at : Option ℤ
  completed_at : Option ℤ
  cancelled_at : Option ℤ
  sos_triggered : Bool
  sos_triggered_at : Option ℤ
  updated_at : ℤ
deriving DecidableEq, Repr, Inhabited

/-- An `audit_logs` row (user, action, entity type, entity id). -/
structure AuditLog where
  user_id : Nat
  action : String
  entity_type : String
  entity_id : Nat
deriving DecidableEq, Repr

/-- An outbound notification or socket emission. -/
inductive Emit where
  | toUser (uid : Nat) (kind : String) (trip_id : Nat)
  | sosAlert (trip_id : Nat) (triggered_by : Nat) (loc : Option Coord)
deriving DecidableEq, Repr

/-- The server-side state the trip routes read and write: the `trips`
    table keyed by id, the `driver_profiles` table, the active pricing
    config, the audit log, emitted notifications, the id the database
    will assign to the next inserted trip, and `process.env.SUPPORT_PHONE`. -/
structure ServerState where
  trips : Nat → Option Trip
  drivers : List (Nat × DriverProfile)
  active_config : Option PricingConfig
  audit_logs : List AuditLog
  emits : List Emit
  next_trip_id : Nat
  support_phone : String

/-- `SELECT ... WHERE user_id = k` on a table keyed by `user_id`
    (first matching row, as a primary-key lookup). -/
def lookupId (l : List (Nat × β)) (k : Nat) : Option β :=
  match l with
  | [] => none
  | p :: ps => if p.1 = k then some p.2 else lookupId ps k

/-- `UPDATE driver_profiles SET is_available = b WHERE user_id = d`. -/
def setAvailability (l : List (Nat × DriverProfile)) (d : Nat) (b : Bool) :
    List (Nat × DriverProfile) :=
  l.map fun p => if p.1 = d then (p.1, { p.2 with is_available := b }) else p

/-! ## Route handlers (`backend/src/routes/trips.js`) -/

/-- Truthiness of `loc?.latitude` / `loc?.longitude` in JavaScript for a
    numeric-or-absent field: `undefined` and `0` are falsy. -/
def truthyNum : Option ℚ → Bool
  | none => false
  | some x => x != 0

/-- A `pickup_location` / `dropoff_location` object of the request body:
    possibly-missing numeric coordinates plus an address. -/
structure LocationInput where
  latitude : Option ℚ
  longitude : Option ℚ
  address : String
deriving DecidableEq, Repr

/-- The validation applied by `POST /request`:
    `!pickup_location?.latitude || !pickup_location?.longitude ||
     !dropoff_location?.latitude || !dropoff_location?.longitude`. -/
def locationsTruthy (pickup dropoff : LocationInput) : Bool :=
  truthyNum pickup.latitude && truthyNum pickup.longitude
    && truthyNum dropoff.latitude && truthyNum dropoff.longitude

/-- Outcome of `POST /request`: the 200 payload, the 400
    `'Invalid pickup or dropoff location'` response, or the 500 path
    (reached e.g. when no active pricing config row exists). -/
inductive RequestResult where
  | success (trip_id : Nat) (estimated_price : ℤ) (estimated_distance_km : ℚ)
      (estimated_duration_min : ℤ) (available_drivers_count : Nat)
  | invalidLocation
  | serverError
deriving DecidableEq, Repr

/-- Whether a `POST /request` outcome is the 200 success payload. -/
def RequestResult.isSuccess : RequestResult → Bool
  | .success _ _ _ _ _ => true
  | _ => false

/-- `POST /request` from `backend/src/routes/trips.js`.  `calcDist` is
    `calculateDistance` of `utils/pricing.js` (haversine on a 6371 km
    sphere, rounded to one decimal) and `distM` the PostGIS metric used
    by `findNearbyDrivers`; both are transcendental, so they enter the
    model as parameters.  The handler: truthiness-validate the two
    locations, compute distance and price, insert a `pending` trip with
    a null driver, search drivers within 5 km, notify each candidate,
    append an audit row, and answer with the estimate. -/
def requestTrip (calcDist distM : Coord → Coord → ℚ) (s : ServerState)
    (client_id : Nat) (pickup dropoff : LocationInput) (now : Instant) :
    RequestResult × ServerState :=
  if locationsTruthy pickup dropoff then
    match s.active_config with
    | none => (.serverError, s)
    | some cfg =>
      let pc : Coord := ⟨pickup.latitude.getD 0, pickup.longitude.getD 0⟩
      let dc : Coord := ⟨dropoff.latitude.getD 0, dropoff.longitude.getD 0⟩
      let distance := calcDist pc dc
      let price := calculatePrice distance now cfg
      let duration := jsRound (distance / (3/5))
      let tid := s.next_trip_id
      let t : Trip :=
        { client_id := client_id, driver_id := none
        , pickup := pc, pickup_address := pickup.address
        , dropoff := dc, dropoff_address := dropoff.address
        , estimated_distance_km := distance
        , estimated_duration_min := duration
        , estimated_price := price, final_price := none
        , status := .pending
        , requested_at := now.epoch, accepted_at := none, started_at := none
        , completed_at := none, cancelled_at := none
        , sos_triggered := false, sos_triggered_at := none
        , updated_at := now.epoch }
      let nearby := findNearbyDrivers distM s.drivers pc 5 now.epoch
      ( .success tid price distance duration nearby.length
      , { s with
          trips := fun k => if k = tid then some t else s.trips k
        , next_trip_id := tid + 1
        , emits := s.emits ++ nearby.map fun c => .toUser c.id "new_trip_request" tid
        , audit_logs := s.audit_logs ++ [⟨client_id, "trip_requested", "trip", tid⟩] } )
  else (.invalidLocation, s)

/-- Outcome of `POST /:trip_id/accept`: 200, the 409
    `'Trip already accepted by another driver or cancelled'` response,
    or the 403 `'Driver not approved or not available'` response. -/
inductive AcceptResult where
  | success
  | staleOffer
  | driverNotAvailable
deriving DecidableEq, Repr

/-- The `SET` clause of the accept compare-and-set:
    `driver_id = $1, status = 'accepted', accepted_at = NOW()`. -/
def acceptUpdate (t : Trip) (driver_id : Nat) (now : ℤ) : Trip :=
  { t with driver_id := some driver_id, status := .accepted, accepted_at := some now }

/-- `POST /:trip_id/accept` from `backend/src/routes/trips.js`.  Inside
    one transaction: reject unless the calling driver is approved and
    available (403); then run the atomic compare-and-set
    `UPDATE trips SET ... WHERE id = $2 AND status = 'pending'` — zero
    rows updated (trip absent or not pending) rolls back with the 409
    stale-offer response, otherwise the driver is bound, the trip is
    `accepted`, the driver's availability is flipped off, the client is
    notified and an audit row is appended.  Failure paths return the
    state unchanged (`ROLLBACK`). -/
def accept (s : ServerState) (trip_id driver_id : Nat) (now : ℤ) :
    AcceptResult × ServerState :=
  match lookupId s.drivers driver_id with
  | none => (.driverNotAvailable, s)
  | some dp =>
    if dp.approval_status = .approved ∧ dp.is_available = true then
      match s.trips trip_id with
      | some t =>
        if t.status = .pending then
          let t' := acceptUpdate t driver_id now
          ( .success
          , { s with
              trips := fun k => if k = trip_id then some t' else s.trips k
            , drivers := setAvailability s.drivers driver_id false
            , emits := s.emits ++ [.toUser t.client_id "trip_accepted" trip_id]
            , audit_logs := s.audit_logs ++ [⟨driver_id, "trip_accepted", "trip", trip_id⟩] } )
        else (.staleOffer, s)
      | none => (.staleOffer, s)
    else (.driverNotAvailable, s)

/-- Outcome of `PATCH /:trip_id/status`: 200 with the updated row, the
    400 `'Invalid status'` response, 404, or the 403 `'Unauthorized'`
    response. -/
inductive StatusResult where
  | success (trip : Trip)
  | invalidStatus
  | notFound
  | unauthorized
deriving DecidableEq, Repr

/-- The target statuses `PATCH /:trip_id/status` accepts:
    `['driver_arriving', 'in_progress', 'completed',
      'cancelled_by_client', 'cancelled_by_driver']`. -/
def validStatuses : List TripStatus :=
  [.driver_arriving, .in_progress, .completed, .cancelled_by_client, .cancelled_by_driver]

/-- The `UPDATE trips SET ...` built by `PATCH /:trip_id/status`: the new
    status, the matching timestamp column (`started_at` for
    `in_progress`, `completed_at` for `completed`, `cancelled_at` for
    the two cancelled statuses), and `updated_at = NOW()`. -/
def applyStatus (t : Trip) (st : TripStatus) (now : ℤ) : Trip :=
  { t with
    status := st
  , started_at := if st = .in_progress then some now else t.started_at
  , completed_at := if st = .completed then some now else t.completed_at
  , cancelled_at := if st = .cancelled_by_client ∨ st = .cancelled_by_driver then
      some now else t.cancelled_at
  , updated_at := now }

/-- `PATCH /:trip_id/status` from `backend/src/routes/trips.js`: reject
    a target status outside `validStatuses` (400); 404 on an unknown
    trip; 403 unless the caller is the trip's client or bound driver;
    otherwise apply the update unconditionally — the current status is
    never consulted — then restore the driver's availability when the
    new status is `completed` or a cancellation, notify the other
    party, and append an audit row. -/
def setStatus (s : ServerState) (trip_id user_id : Nat) (st : TripStatus) (now : ℤ) :
    StatusResult × ServerState :=
  if st ∈ validStatuses then
    match s.trips trip_id with
    | none => (.notFound, s)
    | some t =>
      if t.client_id = user_id ∨ t.driver_id = some user_id then
        let t' := applyStatus t st now
        let drivers' :=
          if st = .completed ∨ st = .cancelled_by_client ∨ st = .cancelled_by_driver then
            match t.driver_id with
            | some d => setAvailability s.drivers d true
            | none => s.drivers
          else s.drivers
        ( .success t'
        , { s with
            trips := fun k => if k = trip_id then some t' else s.trips k
          , drivers := drivers'
          , emits := s.emits ++
              (match (if user_id = t.client_id then t.driver_id else some t.client_id) with
               | some other => [.toUser other "trip_status_change" trip_id]
               | none => [])
          , audit_logs := s.audit_logs ++
              [⟨user_id, "trip_status_updated", "trip", trip_id⟩] } )
      else (.unauthorized, s)
  else (.invalidStatus, s)

/-- The 200 payload of `POST /:trip_id/sos`. -/
structure SOSResult where
  success : Bool
  message : String
  support_number : String
deriving DecidableEq, Repr

/-- `POST /:trip_id/sos` from `backend/src/routes/trips.js`: set
    `sos_triggered` on the trip (an unconditional `UPDATE ... WHERE id`
    — the status is never consulted), emit one `sos_alert` to the admin
    channel, append exactly one `'sos_triggered'` audit row, and answer
    with an acknowledgement carrying `process.env.SUPPORT_PHONE`.  The
    handler has no failure branch short of a database outage. -/
def triggerSOS (s : ServerState) (trip_id user_id : Nat)
    (current_location : Option Coord) (now : ℤ) : SOSResult × ServerState :=
  let trips' : Nat → Option Trip := fun k =>
    if k = trip_id then
      (s.trips k).map fun t => { t with sos_triggered := true, sos_triggered_at := some now }
    else s.trips k
  ( { success := true, message := "Emergency alert sent to support team"
    , support_number := s.support_phone }
  , { s with
      trips := trips'
    , emits := s.emits ++ [.sosAlert trip_id user_id current_location]
    , audit_logs := s.audit_logs ++ [⟨user_id, "sos_triggered", "trip", trip_id⟩] } )

/-- `updateDriverLocation(driverId, latitude, longitude)` from
    `backend/src/utils/location.js`:
    `UPDATE driver_profiles SET current_location = ..., last_location_update = NOW()`. -/
def updateDriverLocation (s : ServerState) (driver_id : Nat) (latitude longitude : ℚ)
    (now : ℤ) : ServerState :=
  { s with drivers := s.drivers.map fun p =>
      if p.1 = driver_id then
        (p.1, { p.2 with
                current_location := some ⟨latitude, longitude⟩,
                last_location_update := some now })
      else p }

/-! ## Reachable states -/

/-- One externally-triggered state change: any of the modelled
    operations with arbitrary arguments (including arbitrary distance
    metrics for the request path). -/
inductive Step : ServerState → ServerState → Prop where
  | request (calcDist distM : Coord → Coord → ℚ) (s : ServerState) (client_id : Nat)
      (pickup dropoff : LocationInput) (now : Instant) :
      Step s (requestTrip calcDist distM s client_id pickup dropoff now).2
  | acc (s : ServerState) (trip_id driver_id : Nat) (now : ℤ) :
      Step s (accept s trip_id driver_id now).2
  | status (s : ServerState) (trip_id user_id : Nat) (st : TripStatus) (now : ℤ) :
      Step s (setStatus s trip_id user_id st now).2
  | sos (s : ServerState) (trip_id user_id : Nat) (loc : Option Coord) (now : ℤ) :
      Step s (triggerSOS s trip_id user_id loc now).2
  | driverLoc (s : ServerState) (driver_id : Nat) (latitude longitude : ℚ) (now : ℤ) :
      Step s (updateDriverLocation s driver_id latitude longitude now)

/-- A server state before any trip exists: an empty `trips` table, an
    arbitrary driver roster and pricing config, and empty logs. -/
def initState (drivers : List (Nat × DriverProfile)) (cfg : Option PricingConfig)
    (phone : String) : ServerState :=
  { trips := fun _ => none, drivers := drivers, active_config := cfg
  , audit_logs := [], emits := [], next_trip_id := 1, support_phone := phone }

/-- A state the system can actually be in: reachable from some initial
    state by the modelled operations. -/
def Reachable (s : ServerState) : Prop :=
  ∃ drivers cfg phone, Relation.ReflTransGen Step (initState drivers cfg phone) s

/-- A sequence of `accept` calls for one trip executed in the
    serialization order imposed by the database row lock on
    `UPDATE trips ... WHERE id = $2 AND status = 'pending'`; an
    arbitrary interleaving of concurrent accepts is observed as some
    such order. -/
def acceptRace (s : ServerState) (trip_id : Nat) (ds : List Nat) (now : ℤ) :
    List AcceptResult × ServerState :=
  match ds with
  | [] => ([], s)
  | d :: rest =>
    let r := accept s trip_id d now
    let rr := acceptRace r.2 trip_id rest now
    (r.1 :: rr.1, rr.2)

/-- The precondition the accept handler checks about the caller:
    the driver row exists, is approved, and is currently available. -/
def driverEligible (s : ServerState) (d : Nat) : Bool :=
  match lookupId s.drivers d with
  | some dp => dp.approval_status == .approved && dp.is_available
  | none => false

/-! ## Helper lemmas -/

theorem mem_insertByKey {key : α → ℚ} {a x : α} {l : List α}
    (h : x ∈ insertByKey key a l) : x = a ∨ x ∈ l := by
  induction l with
  | nil =>
    simp only [insertByKey] at h
    exact Or.inl (List.mem_singleton.mp h)
  | cons b bs ih =>
    by_cases hab : key a ≤ key b
    · rw [insertByKey, if_pos hab] at h
      simpa using h
    · rw [insertByKey, if_neg hab] at h
      rcases List.mem_cons.mp h with rfl | h
      · exact Or.inr (List.mem_cons_self _ _)
      · rcases ih h with rfl | h
        · exact Or.inl rfl
        · exact Or.inr (List.mem_cons_of_mem _ h)

theorem sorted_insertByKey (key : α → ℚ) (a : α) (l : List α)
    (h : l.Pairwise fun x y => key x ≤ key y) :
    (insertByKey key a l).Pairwise fun x y => key x ≤ key y := by
  induction l with
  | nil => simp [insertByKey]
  | cons b bs ih =>
    rw [List.pairwise_cons] at h
    obtain ⟨hb, hbs⟩ := h
    by_cases hab : key a ≤ key b
    · rw [insertByKey, if_pos hab]
      refine List.pairwise_cons.mpr ⟨?_, List.pairwise_cons.mpr ⟨hb, hbs⟩⟩
      intro x hx
      rcases List.mem_cons.mp hx with rfl | hx
      · exact hab
      · exact le_trans hab (hb x hx)
    · rw [insertByKey, if_neg hab]
      refine List.pairwise_cons.mpr ⟨?_, ih hbs⟩
      intro x hx
      rcases mem_insertByKey hx with rfl | hx
      · exact le_of_not_le hab
      · exact hb x hx

theorem mem_sortByKey {key : α → ℚ} {x : α} {l : List α}
    (h : x ∈ sortByKey key l) : x ∈ l := by
  induction l with
  | nil => simp [sortByKey] at h
  | cons b bs ih =>
    rw [sortByKey] at h
    rcases mem_insertByKey h with rfl | h
    · exact List.mem_cons_self _ _
    · exact List.mem_cons_of_mem _ (ih h)

theorem sorted_sortByKey (key : α → ℚ) (l : List α) :
    (sortByKey key l).Pairwise fun x y => key x ≤ key y := by
  induction l with
  | nil => simp [sortByKey]
  | cons b bs ih => exact sorted_insertByKey key b _ ih

theorem lookupId_setAvailability (l : List (Nat × DriverProfile)) (d k : Nat) (b : Bool) :
    lookupId (setAvailability l d b) k =
      if k = d then (lookupId l k).map fun dp => { dp with is_available := b }
      else lookupId l k := by
  induction l with
  | nil => simp only [setAvailability, List.map_nil, lookupId]; split <;> rfl
  | cons p ps ih =>
    rcases p with ⟨pk, pv⟩
    by_cases hp : pk = d
    · subst hp
      by_cases hk : pk = k
      · subst hk
        simp [setAvailability, lookupId]
      · simp only [setAvailability, List.map_cons] at ih ⊢
        simp [lookupId, hk, Ne.symm hk, ih]
    · by_cases hk : pk = k
      · subst hk
        simp [setAvailability, lookupId, hp, fun h : pk = d => hp h]
      · simp only [setAvailability, List.map_cons] at ih ⊢
        simp [lookupId, hp, hk, ih]



theorem driverEligible_elim {s : ServerState} {d : Nat} (h : driverEligible s d = true) :
    ∃ dp, lookupId s.drivers d = some dp ∧ dp.approval_status = .approved ∧
      dp.is_available = true := by
  unfold driverEligible at h
  cases hd : lookupId s.drivers d with
  | none => rw [hd] at h; cases h
  | some dp =>
    rw [hd] at h
    simp only [Bool.and_eq_true, beq_iff_eq] at h
    exact ⟨dp, rfl, h.1, h.2⟩

/-- An accept call by an approved, available driver on a trip that is
    not `pending` hits the zero-rows branch of the compare-and-set:
    stale offer, state unchanged. -/
theorem accept_stale {s : ServerState} {trip_id d : Nat} {t : Trip} (now : ℤ)
    (ht : s.trips trip_id = some t) (hnp : t.status ≠ .pending)
    (he : driverEligible s d = true) :
    accept s trip_id d now = (.staleOffer, s) := by
  obtain ⟨dp, hd, ha, hv⟩ := driverEligible_elim he
  unfold accept
  rw [hd]
  simp only [ha, hv, and_self, if_true]
  rw [ht]
  simp [hnp]

/-- Running a whole list of accept calls by approved, available drivers
    against a non-pending trip: every call observes `staleOffer` and the
    state never changes. -/
theorem acceptRace_stale {s : ServerState} {trip_id : Nat} {t : Trip} (now : ℤ)
    (ds : List Nat)
    (ht : s.trips trip_id = some t) (hnp : t.status ≠ .pending)
    (he : ∀ d ∈ ds, driverEligible s d = true) :
    acceptRace s trip_id ds now = (ds.map fun _ => .staleOffer, s) := by
  induction ds with
  | nil => rfl
  | cons d rest ih =>
    have h1 : accept s trip_id d now = (.staleOffer, s) :=
      accept_stale now ht hnp (he d (List.mem_cons_self _ _))
    rw [acceptRace]
    simp only [h1]
    rw [ih fun d hd => he d (List.mem_cons_of_mem _ hd)]
    rfl

/-- An accept call by an approved, available driver on a `pending` trip
    takes the success branch of the compare-and-set. -/
theorem accept_pending {s : ServerState} {trip_id d : Nat} {t : Trip} (now : ℤ)
    (ht : s.trips trip_id = some t) (hp : t.status = .pending)
    (he : driverEligible s d = true) :
    accept s trip_id d now =
      ( .success
      , { s with
          trips := fun k => if k = trip_id then some (acceptUpdate t d now) else s.trips k
        , drivers := setAvailability s.drivers d false
        , emits := s.emits ++ [.toUser t.client_id "trip_accepted" trip_id]
        , audit_logs := s.audit_logs ++ [⟨d, "trip_accepted", "trip", trip_id⟩] } ) := by
  obtain ⟨dp, hd, ha, hv⟩ := driverEligible_elim he
  unfold accept
  rw [hd]
  simp only [ha, hv, and_self, if_true]
  rw [ht]
  simp [hp]

/-- Availability flips do not change who is an eligible accepter, other
    than the driver whose availability was flipped. -/
theorem driverEligible_setAvailability_ne {s : ServerState} {d w : Nat} (b : Bool)
    (drivers' : List (Nat × DriverProfile))
    (hb : drivers' = setAvailability s.drivers w b) (hne : d ≠ w) :
    driverEligible { s with drivers := drivers' } d = driverEligible s d := by
  unfold driverEligible
  simp only [hb, lookupId_setAvailability, hne, if_false]

/-! ## Trip invariant machinery -/

/-- The part of the driver-binding invariant that the code actually
    maintains: a `pending` trip has no bound driver, and an `accepted`
    trip has one. -/
def TripOK (t : Trip) : Prop :=
  (t.status = .pending → t.driver_id = none) ∧ (t.status = .accepted → t.driver_id ≠ none)

/-- Every trip row of a state satisfies `TripOK`. -/
def TripsOK (s : ServerState) : Prop :=
  ∀ tid t, s.trips tid = some t → TripOK t

theorem tripsOK_requestTrip (calcDist distM : Coord → Coord → ℚ) (s : ServerState)
    (cid : Nat) (pu dof : LocationInput) (now : Instant) (h : TripsOK s) :
    TripsOK (requestTrip calcDist distM s cid pu dof now).2 := by
  intro tid t ht
  unfold requestTrip at ht
  rcases hb : locationsTruthy pu dof with _ | _ <;> rw [hb] at ht
  · simp only [Bool.false_eq_true, if_false] at ht
    exact h _ _ ht
  · simp only [if_true] at ht
    rcases hcfg : s.active_config with _ | cfg <;> rw [hcfg] at ht
    · exact h _ _ ht
    · simp only [] at ht
      by_cases htid : tid = s.next_trip_id
      · rw [if_pos htid] at ht
        cases ht
        exact ⟨fun _ => rfl, fun hc => nomatch hc⟩
      · rw [if_neg htid] at ht
        exact h _ _ ht

theorem tripsOK_accept (s : ServerState) (trip_id driver_id : Nat) (now : ℤ)
    (h : TripsOK s) : TripsOK (accept s trip_id driver_id now).2 := by
  intro tid' t' ht'
  unfold accept at ht'
  rcases hd : lookupId s.drivers driver_id with _ | dp <;> rw [hd] at ht' <;>
    simp only [] at ht'
  · exact h _ _ ht'
  · by_cases hc : dp.approval_status = .approved ∧ dp.is_available = true
    · rw [if_pos hc] at ht'
      rcases htr : s.trips trip_id with _ | t <;> rw [htr] at ht' <;>
        simp only [] at ht'
      · exact h _ _ ht'
      · by_cases hst : t.status = .pending
        · rw [if_pos hst] at ht'
          simp only [] at ht'
          by_cases hx : tid' = trip_id
          · rw [if_pos hx] at ht'
            cases ht'
            exact ⟨fun hc' => (nomatch hc'), fun _ => by simp [acceptUpdate]⟩
          · rw [if_neg hx] at ht'
            exact h _ _ ht'
        · rw [if_neg hst] at ht'
          exact h _ _ ht'
    · rw [if_neg hc] at ht'
      exact h _ _ ht'

theorem validStatuses_elim {st : TripStatus} (hm : st ∈ validStatuses) :
    st ≠ .pending ∧ st ≠ .accepted := by
  simp only [validStatuses, List.mem_cons, List.not_mem_nil, or_false] at hm
  rcases hm with rfl | rfl | rfl | rfl | rfl <;> exact ⟨by simp, by simp⟩

theorem tripsOK_setStatus (s : ServerState) (trip_id user_id : Nat) (st : TripStatus)
    (now : ℤ) (h : TripsOK s) : TripsOK (setStatus s trip_id user_id st now).2 := by
  intro tid' t' ht'
  unfold setStatus at ht'
  by_cases hm : st ∈ validStatuses
  · rw [if_pos hm] at ht'
    rcases htr : s.trips trip_id with _ | t <;> rw [htr] at ht' <;>
      simp only [] at ht'
    · exact h _ _ ht'
    · by_cases hauth : t.client_id = user_id ∨ t.driver_id = some user_id
      · rw [if_pos hauth] at ht'
        simp only [] at ht'
        by_cases hx : tid' = trip_id
        · rw [if_pos hx] at ht'
          cases ht'
          obtain ⟨hnp, hna⟩ := validStatuses_elim hm
          exact ⟨fun hc => absurd (by simpa [applyStatus] using hc) hnp,
                 fun hc => absurd (by simpa [applyStatus] using hc) hna⟩
        · rw [if_neg hx] at ht'
          exact h _ _ ht'
      · rw [if_neg hauth] at ht'
        exact h _ _ ht'
  · rw [if_neg hm] at ht'
    exact h _ _ ht'

theorem tripsOK_triggerSOS (s : ServerState) (trip_id user_id : Nat)
    (loc : Option Coord) (now : ℤ) (h : TripsOK s) :
    TripsOK (triggerSOS s trip_id user_id loc now).2 := by
  intro tid' t' ht'
  unfold triggerSOS at ht'
  simp only [] at ht'
  by_cases hx : tid' = trip_id
  · rw [if_pos hx] at ht'
    rcases Option.map_eq_some'.mp ht' with ⟨t₀, ht₀, rfl⟩
    obtain ⟨h1, h2⟩ := h _ _ ht₀
    exact ⟨fun hp => h1 hp, fun ha => h2 ha⟩
  · rw [if_neg hx] at ht'
    exact h _ _ ht'

theorem tripsOK_updateDriverLocation (s : ServerState) (driver_id : Nat)
    (latitude longitude : ℚ) (now : ℤ) (h : TripsOK s) :
    TripsOK (updateDriverLocation s driver_id latitude longitude now) := by
  intro tid' t' ht'
  exact h _ _ ht'

/-- The driver-binding facts hold in every reachable state. -/
theorem reachable_tripsOK {s : ServerState} (h : Reachable s) : TripsOK s := by
  obtain ⟨ds, cfg, ph, hr⟩ := h
  induction hr with
  | refl =>
    intro tid t ht
    exact absurd ht (by simp [initState])
  | tail hab hbc ih =>
    cases hbc
    case request => exact tripsOK_requestTrip _ _ _ _ _ _ _ ih
    case acc => exact tripsOK_accept _ _ _ _ ih
    case status => exact tripsOK_setStatus _ _ _ _ _ ih
    case sos => exact tripsOK_triggerSOS _ _ _ _ _ ih
    case driverLoc => exact tripsOK_updateDriverLocation _ _ _ _ _ ih

theorem driverEligible_ext {s₁ s₂ : ServerState} {d : Nat}
    (h : lookupId s₁.drivers d = lookupId s₂.drivers d) :
    driverEligible s₁ d = driverEligible s₂ d := by
  unfold driverEligible
  rw [h]

/-- Serializing a race on a `pending` trip with an eligible winner in
    front: the winner's compare-and-set succeeds and installs the bound
    trip, every later call lands on a non-pending trip and observes
    `staleOffer`, and the state stops changing after the winner. -/
theorem acceptRace_pending_run
    (s : ServerState) (trip_id winner : Nat) (rest : List Nat) (now : ℤ) (t : Trip)
    (ht : s.trips trip_id = some t) (hp : t.status = .pending)
    (he : ∀ d ∈ winner :: rest, driverEligible s d = true)
    (hw : winner ∉ rest) :
    acceptRace s trip_id (winner :: rest) now
      = ( .success :: rest.map fun _ => .staleOffer
        , { s with
            trips := fun k => if k = trip_id then some (acceptUpdate t winner now)
              else s.trips k
          , drivers := setAvailability s.drivers winner false
          , emits := s.emits ++ [.toUser t.client_id "trip_accepted" trip_id]
          , audit_logs := s.audit_logs ++ [⟨winner, "trip_accepted", "trip", trip_id⟩] } ) := by
  set S1 : ServerState := { s with
      trips := fun k => if k = trip_id then some (acceptUpdate t winner now) else s.trips k
    , drivers := setAvailability s.drivers winner false
    , emits := s.emits ++ [.toUser t.client_id "trip_accepted" trip_id]
    , audit_logs := s.audit_logs ++ [⟨winner, "trip_accepted", "trip", trip_id⟩] }
    with hS1
  have hT : S1.trips trip_id = some (acceptUpdate t winner now) := by
    rw [hS1]; simp
  have hnp : (acceptUpdate t winner now).status ≠ .pending := by simp [acceptUpdate]
  have hE : ∀ d ∈ rest, driverEligible S1 d = true := by
    intro d hdm
    have hne : d ≠ winner := fun hq => hw (hq ▸ hdm)
    have hlk : lookupId S1.drivers d = lookupId s.drivers d := by
      rw [hS1]
      show lookupId (setAvailability s.drivers winner false) d = lookupId s.drivers d
      rw [lookupId_setAvailability]
      simp [hne]
    rw [driverEligible_ext hlk]
    exact he d (List.mem_cons_of_mem _ hdm)
  have hacc := accept_pending now ht hp (he winner (List.mem_cons_self _ _))
  rw [← hS1] at hacc
  have hstale := acceptRace_stale now rest hT hnp hE
  simp only [acceptRace]
  rw [hacc]
  simp only []
  rw [hstale]

/-- Everything `nearbyRows` keeps passed the SQL `WHERE` clause. -/
theorem nearbyRows_all_eligible {distM : Coord → Coord → ℚ}
    {rows : List (Nat × DriverProfile)} {q : Coord} {radiusKm : ℚ} {now : ℤ}
    {p : Nat × DriverProfile} (h : p ∈ nearbyRows distM rows q radiusKm now) :
    eligibleRow distM q radiusKm now p = true := by
  unfold nearbyRows at h
  have h1 := List.take_subset _ _ h
  exact (List.mem_filter.mp (mem_sortByKey h1)).2

/-- `nearbyRows` is ordered ascending by distance to the query point. -/
theorem nearbyRows_sorted (distM : Coord → Coord → ℚ)
    (rows : List (Nat × DriverProfile)) (q : Coord) (radiusKm : ℚ) (now : ℤ) :
    (nearbyRows distM rows q radiusKm now).Pairwise
      fun a b => rowDist distM q a ≤ rowDist distM q b := by
  unfold nearbyRows
  exact (sorted_sortByKey _ _).sublist (List.take_sublist _ _)

/-! ## Concrete fixtures -/

/-- An approved, available, active driver with a fresh position. -/
def demoDriver : DriverProfile :=
  { approval_status := .approved, is_available := true
  , current_location := some ⟨-1, 36⟩, last_location_update := some 0
  , user_active := true, full_name := "Jane Driver"
  , phone_number := "+254722222222", rating_average := 5, total_trips := 42
  , profile_photo_url := "https://example.com/jane.jpg" }

/-- A trip row with the given status and bound driver. -/
def demoTrip (st : TripStatus) (drv : Option Nat) : Trip :=
  { client_id := 100, driver_id := drv
  , pickup := ⟨-1, 36⟩, pickup_address := "Westlands"
  , dropoff := ⟨-2, 37⟩, dropoff_address := "Kilimani"
  , estimated_distance_km := 5, estimated_duration_min := 8
  , estimated_price := 550, final_price := none
  , status := st, requested_at := 0, accepted_at := none, started_at := none
  , completed_at := none, cancelled_at := none
  , sos_triggered := false, sos_triggered_at := none, updated_at := 0 }

/-- A server state holding one trip (id 1) and three eligible drivers. -/
def mkState (t : Trip) : ServerState :=
  { trips := fun k => if k = 1 then some t else none
  , drivers := [(10, demoDriver), (11, demoDriver), (12, demoDriver)]
  , active_config := some defaultConfig
  , audit_logs := [], emits := []
  , next_trip_id := 2, support_phone := "+254700000000" }

/-- A stand-in for the haversine `calculateDistance` (5 km everywhere). -/
def cdist : Coord → Coord → ℚ := fun _ _ => 5

/-- A stand-in for the PostGIS metric (1000 m everywhere). -/
def dmeters : Coord → Coord → ℚ := fun _ _ => 1000

/-- A well-formed pickup location inside Nairobi. -/
def goodPickup : LocationInput := ⟨some (-1), some 36, "Westlands"⟩

/-- A well-formed dropoff location inside Nairobi. -/
def goodDropoff : LocationInput := ⟨some (-2), some 37, "Kilimani"⟩

/-- The initial state of the reachability scenarios: one approved,
    available driver (id 200) and the default pricing config. -/
def c2Init : ServerState :=
  initState [(200, demoDriver)] (some defaultConfig) "+254700000000"

/-- After client 100 requests a trip: trip 1 exists, `pending`, no driver. -/
def c2AfterRequest : ServerState :=
  (requestTrip cdist dmeters c2Init 100 goodPickup goodDropoff ⟨0, 20, 2⟩).2

/-- After driver 200 accepts trip 1. -/
def c2AfterAccept : ServerState :=
  (accept c2AfterRequest 1 200 5).2

/-- After client 100 cancels the accepted trip 1. -/
def c2Cancelled : ServerState :=
  (setStatus c2AfterAccept 1 100 .cancelled_by_client 6).2

/-! ## Claims -/

/-- Claim C5, counterexample.  The spec's worked examples claim
    `estimate(5 km, Tue 23:00, defaultConfig) = 825` and
    `estimate(10 km, Sun 01:00, defaultConfig) = 1980`, but the code's
    own rounding-to-nearest-10 turns 825 into 830, and
    `(300 + 10·50) · 1.5 · 1.2 = 1440`, not 1980. -/
theorem calculatePrice_spec_examples_wrong :
    calculatePrice 5 ⟨0, 23, 2⟩ defaultConfig = 830
      ∧ calculatePrice 10 ⟨0, 1, 0⟩ defaultConfig = 1440
      ∧ calculatePrice 5 ⟨0, 23, 2⟩ defaultConfig ≠ 825
      ∧ calculatePrice 10 ⟨0, 1, 0⟩ defaultConfig ≠ 1980 := by
  refine ⟨?_, ?_, ?_, ?_⟩ <;>
    norm_num [calculatePrice, jsRound, defaultConfig, max_def]

/-- Claim C5, amended.  With the default config (base 300, per km 50,
    night 1.5, weekend 1.2, minimum 400), `calculatePrice` — base plus
    distance cost, night multiplier first, weekend multiplier second,
    minimum-fare clamp, rounding to the nearest 10 — yields 550 for
    (5 km, Tue 20:00), 830 for (5 km, Tue 23:00), 660 for
    (5 km, Sat 14:00) and 1440 for (10 km, Sun 01:00). -/
theorem calculatePrice_default_examples :
    calculatePrice 5 ⟨0, 20, 2⟩ defaultConfig = 550
      ∧ calculatePrice 5 ⟨0, 23, 2⟩ defaultConfig = 830
      ∧ calculatePrice 5 ⟨0, 14, 6⟩ defaultConfig = 660
      ∧ calculatePrice 10 ⟨0, 1, 0⟩ defaultConfig = 1440 := by
  refine ⟨?_, ?_, ?_, ?_⟩ <;>
    norm_num [calculatePrice, jsRound, defaultConfig, max_def]

/-- Claim C9, counterexample.  `calculatePrice` performs no input
    validation: a call with distance −10 km is not rejected — it
    computes `300 − 500`, silently clamps to the 400 minimum, and
    returns the same ordinary price an honest 2 km trip gets. -/
theorem calculatePrice_negative_distance_no_error :
    calculatePrice (-10) ⟨0, 10, 2⟩ defaultConfig = 400
      ∧ calculatePrice 2 ⟨0, 10, 2⟩ defaultConfig = 400 := by
  refine ⟨?_, ?_⟩ <;>
    norm_num [calculatePrice, jsRound, defaultConfig, max_def]

/-- Claim C9, amended.  Zero distance still incurs the base fare
    (visible directly once the minimum clamp is disarmed, and clamped
    to the minimum otherwise); a negative distance is not a validation
    error — the formula is applied and the minimum-fare clamp silently
    absorbs the negative distance cost. -/
theorem calculatePrice_zero_and_negative :
    calculatePrice 0 ⟨0, 10, 2⟩ defaultConfig = 400
      ∧ calculatePrice 0 ⟨0, 10, 2⟩ { defaultConfig with minimum_price := 0 } = 300
      ∧ calculatePrice (-10) ⟨0, 10, 2⟩ defaultConfig = 400 := by
  refine ⟨?_, ?_, ?_⟩ <;>
    norm_num [calculatePrice, jsRound, defaultConfig, max_def]

/-- Claim C6.  The candidate query returns the `WHERE`-filtered rows —
    every surviving row is available, approved and fresh (a stale row is
    never returned, however near) — ordered ascending by distance from
    the query point and capped at 20 entries. -/
theorem findNearbyDrivers_contract (distM : Coord → Coord → ℚ)
    (rows : List (Nat × DriverProfile)) (q : Coord) (radiusKm : ℚ) (now : ℤ) :
    findNearbyDrivers distM rows q radiusKm now
        = (nearbyRows distM rows q radiusKm now).map (presentRow distM q)
      ∧ (findNearbyDrivers distM rows q radiusKm now).length ≤ 20
      ∧ (findNearbyDrivers distM rows q radiusKm now).Pairwise
          (fun a b => a.distance_km ≤ b.distance_km)
      ∧ (nearbyRows distM rows q radiusKm now).all
          (fun p => p.2.is_available && (p.2.approval_status == .approved)
            && freshRow now p.2) = true := by
  refine ⟨rfl, ?_, ?_, ?_⟩
  · rw [findNearbyDrivers, List.length_map, nearbyRows, List.length_take]
    exact min_le_left _ _
  · rw [findNearbyDrivers, List.pairwise_map]
    refine (nearbyRows_sorted distM rows q radiusKm now).imp ?_
    intro a b hab
    show rowDist distM q a / 1000 ≤ rowDist distM q b / 1000
    gcongr
  · rw [List.all_eq_true]
    intro p hp
    have h := nearbyRows_all_eligible hp
    rw [eligibleRow] at h
    simp only [Bool.and_eq_true] at h
    obtain ⟨⟨⟨⟨h1, h2⟩, h3⟩, h4⟩, h5⟩ := h
    simp [h1, h2, h5]

/-- Claim C1.  For a `pending` trip and any serialization order of a set
    of distinct, approved, available drivers racing through
    `POST /:trip_id/accept`, exactly the first serialized call succeeds
    — its driver is bound to the trip, the status becomes `accepted`,
    and that driver's availability flips to false — while every other
    call observes the stale-offer response; afterwards the trip's
    driver is the winner's id and its status is `accepted`. -/
theorem accept_single_winner
    (s : ServerState) (trip_id winner : Nat) (rest : List Nat) (now : ℤ) (t : Trip)
    (ht : s.trips trip_id = some t) (hp : t.status = .pending)
    (he : ∀ d ∈ winner :: rest, driverEligible s d = true)
    (hw : winner ∉ rest) :
    (acceptRace s trip_id (winner :: rest) now).1
        = .success :: (rest.map fun _ => .staleOffer)
      ∧ (acceptRace s trip_id (winner :: rest) now).1.count .success = 1
      ∧ (acceptRace s trip_id (winner :: rest) now).2.trips trip_id
          = some (acceptUpdate t winner now)
      ∧ (acceptUpdate t winner now).driver_id = some winner
      ∧ (acceptUpdate t winner now).status = .accepted
      ∧ (lookupId (acceptRace s trip_id (winner :: rest) now).2.drivers winner).map
          DriverProfile.is_available = some false := by
  have hfull := acceptRace_pending_run s trip_id winner rest now t ht hp he hw
  obtain ⟨dp, hd, _, _⟩ := driverEligible_elim (he winner (List.mem_cons_self _ _))
  refine ⟨by rw [hfull], ?_, by rw [hfull]; simp, by simp [acceptUpdate],
    by simp [acceptUpdate], ?_⟩
  · rw [hfull]
    simp [List.count_cons, List.count_eq_zero, List.mem_map]
  · rw [hfull]
    show (lookupId (setAvailability s.drivers winner false) winner).map _ = _
    rw [lookupId_setAvailability]
    simp [hd]

/-- Claim C1, witness: three eligible drivers race for pending trip 1;
    driver 10's call succeeds, drivers 11 and 12 get `staleOffer`, and
    the trip ends bound to driver 10 with driver 10 unavailable. -/
theorem accept_single_winner_demo :
    (acceptRace (mkState (demoTrip .pending none)) 1 [10, 11, 12] 5).1
        = [.success, .staleOffer, .staleOffer]
      ∧ ((acceptRace (mkState (demoTrip .pending none)) 1 [10, 11, 12] 5).2.trips 1).map
          Trip.driver_id = some (some 10)
      ∧ ((acceptRace (mkState (demoTrip .pending none)) 1 [10, 11, 12] 5).2.trips 1).map
          Trip.status = some .accepted
      ∧ (lookupId (acceptRace (mkState (demoTrip .pending none)) 1 [10, 11, 12] 5).2.drivers
          10).map DriverProfile.is_available = some false := by
  have h := accept_single_winner (mkState (demoTrip .pending none)) 1 10 [11, 12] 5
    (demoTrip .pending none) rfl rfl (by decide) (by decide)
  refine ⟨?_, ?_, ?_, h.2.2.2.2.2⟩
  · rw [h.1]; rfl
  · rw [h.2.2.1]; rfl
  · rw [h.2.2.1]; rfl

/-- Claim C3.  An accept call by an approved, available driver on an
    existing trip whose status is not `pending` fails with the dedicated
    stale-offer response (a condition distinct from the generic-error
    and driver-not-available responses) and returns the server state
    completely unchanged — status, driver binding, timestamps, logs. -/
theorem accept_nonpending_stale
    (s : ServerState) (trip_id d : Nat) (now : ℤ) (t : Trip)
    (ht : s.trips trip_id = some t) (hnp : t.status ≠ .pending)
    (he : driverEligible s d = true) :
    accept s trip_id d now = (.staleOffer, s) :=
  accept_stale now ht hnp he

/-- Claim C3, witness: eligible driver 11 tries to accept trip 1 after
    driver 10 already got it; the call returns `staleOffer` and the
    state is exactly the one before the call. -/
theorem accept_nonpending_stale_demo :
    accept (mkState (demoTrip .accepted (some 10))) 1 11 5
      = (.staleOffer, mkState (demoTrip .accepted (some 10))) :=
  accept_nonpending_stale (mkState (demoTrip .accepted (some 10))) 1 11 5
    (demoTrip .accepted (some 10)) rfl (by decide) (by decide)

/-- Claim C7.  Triggering SOS on any existing trip — the status is never
    consulted, so `completed` and cancelled trips included — returns the
    acknowledgement with the support contact number, sets the trip's
    `sos_triggered` flag while leaving its status untouched, appends
    exactly one `sos_triggered` audit row, and emits exactly one
    `sos_alert`. -/
theorem triggerSOS_always_acknowledges
    (s : ServerState) (trip_id user_id : Nat) (loc : Option Coord) (now : ℤ)
    (t : Trip) (ht : s.trips trip_id = some t) :
    (triggerSOS s trip_id user_id loc now).1
        = ⟨true, "Emergency alert sent to support team", s.support_phone⟩
      ∧ ((triggerSOS s trip_id user_id loc now).2.trips trip_id).map Trip.sos_triggered
          = some true
      ∧ ((triggerSOS s trip_id user_id loc now).2.trips trip_id).map Trip.status
          = some t.status
      ∧ (triggerSOS s trip_id user_id loc now).2.audit_logs
          = s.audit_logs ++ [⟨user_id, "sos_triggered", "trip", trip_id⟩]
      ∧ (triggerSOS s trip_id user_id loc now).2.emits
          = s.emits ++ [.sosAlert trip_id user_id loc] := by
  refine ⟨rfl, ?_, ?_, rfl, rfl⟩
  · show ((fun k => if k = trip_id then (s.trips k).map _ else s.trips k) trip_id).map
      Trip.sos_triggered = some true
    simp [ht]
  · show ((fun k => if k = trip_id then (s.trips k).map _ else s.trips k) trip_id).map
      Trip.status = some t.status
    simp [ht]

/-- Claim C7, witness: SOS on a `completed` trip still acknowledges with
    the support number, flags the trip, and leaves the status alone. -/
theorem triggerSOS_always_acknowledges_demo :
    (triggerSOS (mkState (demoTrip .completed (some 10))) 1 100 none 7).1
        = ⟨true, "Emergency alert sent to support team", "+254700000000"⟩
      ∧ ((triggerSOS (mkState (demoTrip .completed (some 10))) 1 100 none 7).2.trips 1).map
          Trip.sos_triggered = some true
      ∧ ((triggerSOS (mkState (demoTrip .completed (some 10))) 1 100 none 7).2.trips 1).map
          Trip.status = some .completed := by
  have h := triggerSOS_always_acknowledges (mkState (demoTrip .completed (some 10)))
    1 100 none 7 (demoTrip .completed (some 10)) rfl
  exact ⟨h.1, h.2.1, h.2.2.1⟩

/-- Claim C2, amended.  In every reachable state, a `pending` trip has a
    null driver reference and an `accepted` trip has a non-null one.
    The spec's full iff fails in both directions: cancellation never
    clears `driver_id` (the status route only rewrites status and
    timestamp columns — it even relies on the retained `driver_id` to
    notify the other party), and, with no adjacency check, a direct
    status update can move a never-accepted trip to `in_progress` or
    `completed` with a null driver. -/
theorem trips_driver_binding (s : ServerState) (hs : Reachable s) (tid : Nat) (t : Trip)
    (ht : s.trips tid = some t) :
    (t.status = .pending → t.driver_id = none)
      ∧ (t.status = .accepted → t.driver_id ≠ none) :=
  reachable_tripsOK hs tid t ht

/-- Claim C2, witness: the reachable state right after a trip request
    holds trip 1 as `pending`, and the theorem yields its null driver. -/
theorem trips_driver_binding_demo :
    (c2AfterRequest.trips 1).map Trip.driver_id = some none := by
  rcases h : c2AfterRequest.trips 1 with _ | t
  · exact absurd h (by decide)
  · have hr : Reachable c2AfterRequest :=
      ⟨[(200, demoDriver)], some defaultConfig, "+254700000000",
        Relation.ReflTransGen.single
          (Step.request cdist dmeters c2Init 100 goodPickup goodDropoff ⟨0, 20, 2⟩)⟩
    have hst : t.status = .pending := by
      have h2 : (c2AfterRequest.trips 1).map Trip.status = some TripStatus.pending := by
        decide
      rw [h] at h2
      exact Option.some_injective _ h2
    have hmain := trips_driver_binding c2AfterRequest hr 1 t h
    simp [hmain.1 hst]

/-- Claim C2, counterexample.  A reachable state — request, accept by
    driver 200, cancel by the client — contains a trip in
    `cancelled_by_client` whose driver reference is still driver 200,
    refuting "driver non-null iff status ∈ {accepted, driver_arriving,
    in_progress, completed}". -/
theorem cancelled_trip_keeps_driver :
    Reachable c2Cancelled
      ∧ (c2Cancelled.trips 1).map Trip.status = some .cancelled_by_client
      ∧ (c2Cancelled.trips 1).map Trip.driver_id = some (some 200) := by
  refine ⟨⟨[(200, demoDriver)], some defaultConfig, "+254700000000", ?_⟩, by decide, by decide⟩
  exact Relation.ReflTransGen.tail
    (Relation.ReflTransGen.tail
      (Relation.ReflTransGen.single
        (Step.request cdist dmeters c2Init 100 goodPickup goodDropoff ⟨0, 20, 2⟩))
      (Step.acc c2AfterRequest 1 200 5))
    (Step.status c2AfterAccept 1 100 .cancelled_by_client 6)

/-- Claim C4, amended.  `PATCH /:trip_id/status` rejects a target status
    outside its five-value list (as `invalidStatus`, leaving the state
    unchanged), but performs no adjacency check against the current
    status: for an authorized caller and any listed target the update is
    applied whatever the current status — `pending → in_progress`
    included. -/
theorem setStatus_no_adjacency_check (s : ServerState) (trip_id user_id : Nat)
    (st : TripStatus) (now : ℤ) (t : Trip)
    (ht : s.trips trip_id = some t)
    (hauth : t.client_id = user_id ∨ t.driver_id = some user_id) :
    (st ∈ validStatuses →
        (setStatus s trip_id user_id st now).1 = .success (applyStatus t st now)
          ∧ (setStatus s trip_id user_id st now).2.trips trip_id
              = some (applyStatus t st now))
      ∧ (st ∉ validStatuses → setStatus s trip_id user_id st now = (.invalidStatus, s)) := by
  constructor
  · intro hm
    unfold setStatus
    rw [if_pos hm, ht]
    simp only []
    rw [if_pos hauth]
    exact ⟨rfl, by simp⟩
  · intro hm
    unfold setStatus
    rw [if_neg hm]

/-- Claim C4, witness: the client moves pending trip 1 straight to
    `in_progress` and the update is applied, while the non-listed target
    `accepted` is rejected without changes. -/
theorem setStatus_no_adjacency_check_demo :
    (setStatus (mkState (demoTrip .pending none)) 1 100 .in_progress 5).1
        = .success (applyStatus (demoTrip .pending none) .in_progress 5)
      ∧ setStatus (mkState (demoTrip .pending none)) 1 100 .accepted 5
          = (.invalidStatus, mkState (demoTrip .pending none)) := by
  have h1 := setStatus_no_adjacency_check (mkState (demoTrip .pending none)) 1 100
    .in_progress 5 (demoTrip .pending none) rfl (Or.inl rfl)
  have h2 := setStatus_no_adjacency_check (mkState (demoTrip .pending none)) 1 100
    .accepted 5 (demoTrip .pending none) rfl (Or.inl rfl)
  exact ⟨(h1.1 (by decide)).1, h2.2 (by decide)⟩

/-- Claim C4, counterexample.  A direct `pending → in_progress` update
    by the trip's client is not rejected: the call succeeds and the
    stored status changes from `pending` to `in_progress`, refuting
    "rejected with an invalid-transition condition and the trip left
    entirely unchanged". -/
theorem pending_to_in_progress_applied :
    ((mkState (demoTrip .pending none)).trips 1).map Trip.status = some .pending
      ∧ ((setStatus (mkState (demoTrip .pending none)) 1 100 .in_progress 5).2.trips 1).map
          Trip.status = some .in_progress
      ∧ ((setStatus (mkState (demoTrip .pending none)) 1 100 .in_progress 5).2.trips 1).map
          Trip.started_at = some (some 5) := by
  refine ⟨by decide, by decide, by decide⟩

/-- Claim C8, amended.  When an active pricing config exists,
    `POST /request` rejects a request as an invalid location exactly
    when one of the four coordinates is missing or zero (the JavaScript
    truthiness test); it applies neither the `validateCoordinates`
    range check nor the `isWithinServiceArea` bounding-box check — both
    helpers exist in `utils/location.js` but the request route never
    calls them, so out-of-range and out-of-area requests are accepted. -/
theorem requestTrip_validates_only_truthiness (calcDist distM : Coord → Coord → ℚ)
    (s : ServerState) (client_id : Nat) (pickup dropoff : LocationInput)
    (now : Instant) (cfg : PricingConfig) (hcfg : s.active_config = some cfg) :
    (requestTrip calcDist distM s client_id pickup dropoff now).1
        = .invalidLocation
      ↔ locationsTruthy pickup dropoff = false := by
  unfold requestTrip
  rcases hb : locationsTruthy pickup dropoff with _ | _
  · simp
  · rw [if_pos rfl, hcfg]
    simp

/-- Claim C8, witness: a request whose pickup latitude is absent is
    rejected as an invalid location. -/
theorem requestTrip_validates_only_truthiness_demo :
    (requestTrip cdist dmeters (mkState (demoTrip .pending none)) 100
        ⟨none, some 36, "missing latitude"⟩ goodDropoff ⟨0, 20, 2⟩).1
      = .invalidLocation := by
  have h := requestTrip_validates_only_truthiness cdist dmeters
    (mkState (demoTrip .pending none)) 100 ⟨none, some 36, "missing latitude"⟩
    goodDropoff ⟨0, 20, 2⟩ defaultConfig rfl
  exact h.mpr (by decide)

/-- Claim C8, counterexample.  A pickup at latitude 1000 fails the
    repository's own `validateCoordinates`, and a pickup at (10, 20)
    passes the range check but lies outside the `isWithinServiceArea`
    bounding box; `POST /request` accepts both requests anyway, because
    the route never invokes either check. -/
theorem out_of_range_request_accepted :
    validateCoordinates 1000 37 = false
      ∧ validateCoordinates 10 20 = true
      ∧ isWithinServiceArea 10 20 = false
      ∧ (requestTrip cdist dmeters (mkState (demoTrip .pending none)) 100
          ⟨some 1000, some 37, "off the globe"⟩ goodDropoff ⟨0, 20, 2⟩).1.isSuccess = true
      ∧ (requestTrip cdist dmeters (mkState (demoTrip .pending none)) 100
          ⟨some 10, some 20, "outside Nairobi"⟩ goodDropoff ⟨0, 20, 2⟩).1.isSuccess
          = true := by
  refine ⟨by decide, by decide, ?_, by decide, by decide⟩
  have h : ((10 : ℚ) ≤ -1163/1000) = False := by norm_num
  simp [isWithinServiceArea, h]

/-- Claim C10.  A request whose pickup latitude is exactly 0 — a
    well-formed coordinate by the repository's own range check — is
    rejected as an invalid location with no state change, because the
    route tests the coordinates for JavaScript truthiness rather than
    presence and the number 0 is falsy. -/
theorem zero_coordinate_rejected :
    validateCoordinates 0 36 = true
      ∧ requestTrip cdist dmeters (mkState (demoTrip .pending none)) 100
          ⟨some 0, some 36, "on the equator"⟩ goodDropoff ⟨0, 20, 2⟩
        = (.invalidLocation, mkState (demoTrip .pending none)) := by
  exact ⟨by decide, rfl⟩
